import Mathlib

/-!
Shallow embedding of the characteristics-injection and report-assembly core of
`QuantitativeReporting.py` (class `QuantitativeReportingWidget` and the two
module-level helpers `_find_characteristics_from_concept_name_and_choice` and
`create_dataset_from_characteristics`), together with proofs of the spec claims
about it.

Conventions of the embedding:
* Python dicts that are iterated in insertion order are modelled as association
  lists (`List (key × value)`); dict keys are unique in Python, which is stated
  as a hypothesis only where a proof needs it.
* Python exceptions are modelled by the inductive `PyExc`; a function that can
  raise returns `Except PyExc α`.  Raising inside a loop short-circuits, which
  matches the observable behaviour of the source: `sr_ds.save_as` at the end of
  `createDICOMSR` only runs when no exception was raised, so no output file is
  produced on any raise.
* pydicom datasets are modelled structurally, keeping only the attributes the
  analysed code touches.
-/

namespace QuantitativeReporting

/-- A DICOM code triple, as the catalog (`characteristics_config`) stores it:
the keys `CodeValue`, `CodingSchemeDesignator`, `CodeMeaning` of a code dict. -/
structure Code where
  CodeValue : String
  CodingSchemeDesignator : String
  CodeMeaning : String
deriving DecidableEq

/-- One entry of `characteristics_config`: a concept-name code dict plus the
list of its `choices` code dicts, in file order. -/
structure Characteristic where
  ConceptNameCodeSequence : Code
  choices : List Code
deriving DecidableEq

/-- The catalog `characteristics_config`: the ordered list of characteristic
definitions. -/
abbrev Catalog := List Characteristic

/-- The dict returned by `_find_characteristics_from_concept_name_and_choice`
on a match: `{'ConceptNameCodeSequence': ..., 'ConceptCodeSequence': ...}`. -/
structure CharacteristicsDict where
  ConceptNameCodeSequence : Code
  ConceptCodeSequence : Code
deriving DecidableEq

/-- The Python exceptions the analysed code raises or catches.
`plainException` is a bare `Exception(...)`; note that it is not a
`RuntimeError`, `ValueError` or `AttributeError`, so `saveReport`'s
`except (RuntimeError, ValueError, AttributeError)` clause does not catch it. -/
inductive PyExc where
  | ValueError (msg : String)
  | RuntimeError (msg : String)
  | AttributeError (msg : String)
  | IndexError (msg : String)
  | plainException (msg : String)
deriving DecidableEq

/-- Python `exc.args`, collapsed to the single message string every raise site of the
analysed code passes. -/
def PyExc.args : PyExc → String
  | .ValueError m => m
  | .RuntimeError m => m
  | .AttributeError m => m
  | .IndexError m => m
  | .plainException m => m

/-- The `for i in characteristics_config:` loop body of
`_find_characteristics_from_concept_name_and_choice` (lines 951-958): scan the
catalog in order; on an entry whose concept-name `CodeMeaning` equals
`concept_name`, scan its `choices` for one whose `CodeMeaning` equals
`choice_label` and return the pair; if that entry has no such choice the outer
loop simply continues with the next entry. -/
def findLoop (concept_name choice_label : String) : Catalog → Option CharacteristicsDict
  | [] => none
  | i :: rest =>
    if i.ConceptNameCodeSequence.CodeMeaning = concept_name then
      match i.choices.find? (fun j => j.CodeMeaning == choice_label) with
      | some j => some { ConceptNameCodeSequence := i.ConceptNameCodeSequence,
                         ConceptCodeSequence := j }
      | none => findLoop concept_name choice_label rest
    else
      findLoop concept_name choice_label rest

/-- Message of the `ValueError` raised at line 960 of the source, translated
from the f-string. -/
def lookupFaultMessage (concept_name choice_label : String) : String :=
  "Concept name code (CodeMeaning=" ++ concept_name ++ ") with choices " ++
    choice_label ++ " not found"

/-- Function `_find_characteristics_from_concept_name_and_choice` (lines 947-960,
embedded without the leading underscore): `'N/A'` short-circuits to `None`
(modelled `.ok none`); otherwise the catalog scan either returns the matched
pair or falls through to `raise ValueError(...)`. -/
def find_characteristics_from_concept_name_and_choice
    (concept_name choice_label : String) (characteristics_config : Catalog) :
    Except PyExc (Option CharacteristicsDict) :=
  if choice_label = "N/A" then
    .ok none
  else
    match findLoop concept_name choice_label characteristics_config with
    | some r => .ok (some r)
    | none => .error (.ValueError (lookupFaultMessage concept_name choice_label))

/-- A coded content item of the SR content tree, as
`create_dataset_from_characteristics` builds one (a pydicom `Dataset` with
exactly these attributes). -/
structure CodedContentItem where
  RelationshipType : String
  ValueType : String
  ConceptNameCodeSequence : List Code
  ConceptCodeSequence : List Code
deriving DecidableEq

/-- Function `create_dataset_from_characteristics` (lines 963-983): builds the dataset
with `RelationshipType = 'CONTAINS'`, `ValueType = 'CODE'`, and singleton code
sequences copying the three fields of each code of the input dict. -/
def create_dataset_from_characteristics (characteristics_dict : CharacteristicsDict) :
    CodedContentItem :=
  { RelationshipType := "CONTAINS"
    ValueType := "CODE"
    ConceptNameCodeSequence :=
      [{ CodeValue := characteristics_dict.ConceptNameCodeSequence.CodeValue
         CodingSchemeDesignator := characteristics_dict.ConceptNameCodeSequence.CodingSchemeDesignator
         CodeMeaning := characteristics_dict.ConceptNameCodeSequence.CodeMeaning }]
    ConceptCodeSequence :=
      [{ CodeValue := characteristics_dict.ConceptCodeSequence.CodeValue
         CodingSchemeDesignator := characteristics_dict.ConceptCodeSequence.CodingSchemeDesignator
         CodeMeaning := characteristics_dict.ConceptCodeSequence.CodeMeaning }] }

/-- A child of a per-segment SR content item's `ContentSequence`: either a
coded content item (the kind the merge appends) or some other content item the
external encoder produced, identified opaquely. -/
inductive SRChild where
  | coded (c : CodedContentItem)
  | raw (id : Nat)
deriving DecidableEq

/-- A per-segment content item inside `sr_ds.ContentSequence[5].ContentSequence`:
only its own `ContentSequence` is touched (appended to) by the merge. -/
structure SegmentContentItem where
  ContentSequence : List SRChild
deriving DecidableEq

/-- An item of the SR root `ContentSequence`; the merge reads the one at index
5 and uses only its `ContentSequence` of per-segment items. -/
structure SRRootItem where
  ContentSequence : List SegmentContentItem
deriving DecidableEq

/-- The SR dataset (`sr_ds`), kept only through its root `ContentSequence`. -/
structure SRDataset where
  ContentSequence : List SRRootItem
deriving DecidableEq

/-- One record of the SEG dataset's `SegmentSequence`; the merge uses only the
sequence's length, so a single representative attribute is kept. -/
structure SegmentRecord where
  SegmentNumber : Nat
deriving DecidableEq

/-- The SEG dataset (`seg_ds`).  `numDataElements` models Python's
`len(seg_ds)` — the number of top-level data elements of the pydicom dataset,
which the source's error message interpolates (a slip for
`len(seg_ds.SegmentSequence)`); it is unrelated to the segment count. -/
structure SEGDataset where
  SegmentSequence : List SegmentRecord
  numDataElements : Nat
deriving DecidableEq

/-- One segment's characteristics map (`self.segment_characteristics[key]`):
`concept_name ↦ choice_label` pairs, iterated in insertion order. -/
abbrev Entry := List (String × String)

/-- The store `self.segment_characteristics`: segment label value to characteristics map,
as an insertion-ordered association list (keys are unique in the Python dict). -/
abbrev Store := List (Nat × Entry)

/-- Python `sorted(self.segment_characteristics)` (line 791): the store's keys in
ascending numeric order (`insertionSort` is a stable ascending sort, like
Python's `sorted`). -/
def sortedKeysOf (store : Store) : List Nat :=
  (store.map Prod.fst).insertionSort (· ≤ ·)

/-- Dict indexing `self.segment_characteristics[key]` (line 801).  Every key
the merge looks up comes from `sorted(self.segment_characteristics)`, so it is
always present; the `[]` default is never reached for such keys. -/
def lookupEntry (store : Store) (key : Nat) : Entry :=
  match store.find? (fun p => p.1 == key) with
  | some p => p.2
  | none => []

/-- Truth of whether a resolution performed by the inner loop of the merge on
this entry succeeds (returns `None` or a match rather than raising). -/
def exceptIsOk : Except PyExc (Option CharacteristicsDict) → Bool
  | .ok _ => true
  | .error _ => false

/-- Boolean precondition: every `(concept_name, choice_label)` pair of the
entry resolves without raising against the given catalog. -/
def entryResolvesB (catalog : Catalog) (entry : Entry) : Bool :=
  entry.all (fun p =>
    exceptIsOk (find_characteristics_from_concept_name_and_choice p.1 p.2 catalog))

/-- The inner loop of the merge (lines 801-807) for one paired
(SR content item, segment key): for each `(concept_name, choice_label)` of the
segment's map in order, resolve it; `None` (the `'N/A'` case) is skipped via
`continue`; a match is turned into a dataset and appended to the item's
`ContentSequence`; a raise aborts everything. -/
def applyEntry (catalog : Catalog) (dataset : SegmentContentItem) :
    Entry → Except PyExc SegmentContentItem
  | [] => .ok dataset
  | p :: rest =>
    match find_characteristics_from_concept_name_and_choice p.1 p.2 catalog with
    | .error e => .error e
    | .ok none => applyEntry catalog dataset rest
    | .ok (some characteristics) =>
        applyEntry catalog
          { dataset with
              ContentSequence := dataset.ContentSequence ++
                [SRChild.coded (create_dataset_from_characteristics characteristics)] }
          rest

/-- The coded content items one segment's map contributes: one per pair that
resolves to a match, in map order; `'N/A'` pairs contribute nothing. -/
def codedItemsFor (catalog : Catalog) (entry : Entry) : List SRChild :=
  entry.filterMap (fun p =>
    match find_characteristics_from_concept_name_and_choice p.1 p.2 catalog with
    | .ok (some characteristics) =>
        some (SRChild.coded (create_dataset_from_characteristics characteristics))
    | _ => none)

/-- The outer loop of the merge (line 800):
`for dataset, key in zip(sr_ds.ContentSequence[5].ContentSequence, sorted_keys)`.
`zip` silently truncates to the shorter list: per-segment items beyond the key
list are left unmodified, keys beyond the item list are never processed. -/
def mergeZip (catalog : Catalog) (store : Store) :
    List SegmentContentItem → List Nat → Except PyExc (List SegmentContentItem)
  | dataset :: rest, key :: keys =>
    match applyEntry catalog dataset (lookupEntry store key) with
    | .error e => .error e
    | .ok dataset' =>
        match mergeZip catalog store rest keys with
        | .error e => .error e
        | .ok rest' => .ok (dataset' :: rest')
  | datasets, [] => .ok datasets
  | [], _ :: _ => .ok []

/-- Message of the `ValueError` raised at lines 793-795, translated from the
f-string (the source's typo "charateristics" is kept; the first interpolant is
`len(seg_ds)`, the second `len(self.segment_characteristics)`). -/
def consistencyFaultMessage (numDataElements numStoreEntries : Nat) : String :=
  "Number of segmentation (" ++ toString numDataElements ++
    ") in SEG DICOM != Number of segmentation charateristics (" ++
    toString numStoreEntries ++ ")"

/-- An exception is the consistency fault of the spec's taxonomy iff it is the
count-mismatch `ValueError` the merge raises. -/
def ConsistencyFault (e : PyExc) : Prop :=
  ∃ a b, e = .ValueError (consistencyFaultMessage a b)

/-- Lines 788-811 of `createDICOMSR`: the characteristics merge.  Reads the SEG
dataset, checks `len(seg_ds.SegmentSequence) == len(sorted_keys)` (raising the
consistency `ValueError` otherwise, before the SR dataset is touched), then
reads the SR dataset, patches the per-segment items under root content item 5,
saves the mutated SR and returns `outputSRPath`.  On success the result also
carries the saved SR dataset; on a raise nothing is written. -/
def createDICOMSR_merge (seg_ds : SEGDataset) (store : Store) (catalog : Catalog)
    (sr_ds : SRDataset) (outputSRPath : String) : Except PyExc (String × SRDataset) :=
  let sorted_segment_characteristics_keys := sortedKeysOf store
  if seg_ds.SegmentSequence.length ≠ sorted_segment_characteristics_keys.length then
    .error (.ValueError (consistencyFaultMessage seg_ds.numDataElements store.length))
  else
    match sr_ds.ContentSequence[5]? with
    | none => .error (.IndexError "list index out of range")
    | some item5 =>
        match mergeZip catalog store item5.ContentSequence
            sorted_segment_characteristics_keys with
        | .error e => .error e
        | .ok newItems =>
            .ok (outputSRPath,
              { sr_ds with
                  ContentSequence := sr_ds.ContentSequence.set 5
                    { item5 with ContentSequence := newItems } })

/-- Function `createDICOMSR` from the CLI invocation on (lines 783-811): if the
`tid1500writer` CLI node's status string is not `'Completed'` the function
raises a bare `Exception` (line 786); otherwise it performs the merge. -/
def createDICOMSR (cliStatus : String) (seg_ds : SEGDataset) (store : Store)
    (catalog : Catalog) (sr_ds : SRDataset) (outputSRPath : String) :
    Except PyExc (String × SRDataset) :=
  if cliStatus ≠ "Completed" then
    .error (.plainException "tid1500writer CLI did not complete cleanly")
  else
    createDICOMSR_merge seg_ds store catalog sr_ds outputSRPath

/-- The exception classes caught by `saveReport`'s
`except (RuntimeError, ValueError, AttributeError)` clause (line 703). -/
def caughtBySaveReport : PyExc → Bool
  | .RuntimeError _ => true
  | .ValueError _ => true
  | .AttributeError _ => true
  | .IndexError _ => false
  | .plainException _ => false

/-- Outcome of one `saveReport` call: `result` is the returned
`(success, err)` pair, or `.error e` when an exception escapes uncaught;
`cleanupRan` records whether `cleanupTemporaryData` ran (the `finally` block). -/
structure SaveReportResult where
  result : Except PyExc (Bool × Option String)
  cleanupRan : Bool

/-- Function `saveReport` (lines 691-707).  `metadataConfirmed` is whether
`retrieveMetaDataFromUser` returned metadata; `body` abstracts the `try` block
(`createSEG`, `createDICOMSR`, indexing).  Python's `finally` runs on normal
return, on a caught exception, and on an uncaught exception alike, so
`cleanupRan` is `true` on every path past the metadata check; an exception not
matched by the `except` clause propagates to the caller after the `finally`. -/
def saveReport (metadataConfirmed : Bool) (body : Except PyExc Unit) :
    SaveReportResult :=
  if metadataConfirmed = false then
    { result := .ok (false,
        some "Saving process canceled. Meta-information was not confirmed by user.")
      cleanupRan := false }
  else
    match body with
    | .ok _ => { result := .ok (true, none), cleanupRan := true }
    | .error e =>
        if caughtBySaveReport e then
          { result := .ok (false, some e.args), cleanupRan := true }
        else
          { result := .error e, cleanupRan := true }

/-- Function `saveReport` with its `try` body instantiated by the actual save sequence:
first the SEG export (abstracted as `segExport`, whose own faults are
`ValueError`s), then `createDICOMSR`; the database indexing that follows cannot
raise any of the modelled exceptions and is dropped. -/
def saveReportWith (metadataConfirmed : Bool) (segExport : Except PyExc Unit)
    (cliStatus : String) (seg_ds : SEGDataset) (store : Store) (catalog : Catalog)
    (sr_ds : SRDataset) (outputSRPath : String) : SaveReportResult :=
  saveReport metadataConfirmed
    (segExport.bind (fun _ =>
      (createDICOMSR cliStatus seg_ds store catalog sr_ds outputSRPath).map
        (fun _ => ())))

/-- The pruning step of `updateSegmentationCharacteristics` (lines 616-618):
`{s: c for s, c in self.segment_characteristics.items() if s in segment_ids}`. -/
def pruneSegmentCharacteristics (store : Store) (segment_ids : List Nat) : Store :=
  store.filter (fun p => segment_ids.contains p.1)

/-- The per-segment items the merge loop produces, as a pure function: each
item paired with a key gains that key's coded items appended to its
`ContentSequence`; items beyond the key list, or keys beyond the item list,
are dropped from the pairing exactly as `zip` drops them. -/
def expectedItems (catalog : Catalog) (store : Store) :
    List SegmentContentItem → List Nat → List SegmentContentItem
  | dataset :: rest, key :: keys =>
      { dataset with ContentSequence :=
          dataset.ContentSequence ++ codedItemsFor catalog (lookupEntry store key) } ::
        expectedItems catalog store rest keys
  | datasets, [] => datasets
  | [], _ :: _ => []

/-- Catalog for concrete witnesses: concept "Shape" with choices "Round" and
"Irregular". -/
def demoCatalog : Catalog :=
  [{ ConceptNameCodeSequence :=
       { CodeValue := "C1", CodingSchemeDesignator := "SCT", CodeMeaning := "Shape" }
     choices :=
       [{ CodeValue := "A", CodingSchemeDesignator := "SCT", CodeMeaning := "Round" },
        { CodeValue := "B", CodingSchemeDesignator := "SCT", CodeMeaning := "Irregular" }] }]

/-- Two-segment store: segment 7 has "Shape"->"Round", segment 12 has
"Shape"->"N/A". -/
def demoStore2 : Store := [(7, [("Shape", "Round")]), (12, [("Shape", "N/A")])]

/-- Three-segment store: also segment 3 with "Shape"->"Irregular". -/
def demoStore3 : Store :=
  [(7, [("Shape", "Round")]), (12, [("Shape", "N/A")]), (3, [("Shape", "Irregular")])]

/-- SEG dataset with two segment records. -/
def demoSeg2 : SEGDataset :=
  { SegmentSequence := [{ SegmentNumber := 1 }, { SegmentNumber := 2 }]
    numDataElements := 20 }

/-- SEG dataset with three segment records. -/
def demoSeg3 : SEGDataset :=
  { SegmentSequence := [{ SegmentNumber := 1 }, { SegmentNumber := 2 },
      { SegmentNumber := 3 }]
    numDataElements := 20 }

/-- Root SR content item number 5 with two per-segment items, each already
holding one encoder-produced child. -/
def demoItem5 : SRRootItem :=
  { ContentSequence := [{ ContentSequence := [SRChild.raw 100] },
                        { ContentSequence := [SRChild.raw 200] }] }

/-- SR dataset with six root content items, the sixth being `demoItem5`. -/
def demoSR : SRDataset :=
  { ContentSequence := [{ ContentSequence := [] }, { ContentSequence := [] },
      { ContentSequence := [] }, { ContentSequence := [] }, { ContentSequence := [] },
      demoItem5] }

/-- A second, different SR dataset (used to show the mismatch failure is
independent of the SR). -/
def demoSRother : SRDataset :=
  { ContentSequence := [{ ContentSequence := [] }, { ContentSequence := [] },
      { ContentSequence := [] }, { ContentSequence := [] }, { ContentSequence := [] },
      { ContentSequence := [{ ContentSequence := [SRChild.raw 300] }] }] }

/-- Catalog for the C5 witness: concept "Shape" exists but has no choice
"Oval". -/
def c5catalog : Catalog :=
  [{ ConceptNameCodeSequence :=
       { CodeValue := "C1", CodingSchemeDesignator := "SCT", CodeMeaning := "Shape" }
     choices :=
       [{ CodeValue := "A", CodingSchemeDesignator := "SCT", CodeMeaning := "Round" }] }]

/-- Catalog entry used to exhibit the duplicate-concept-name behaviour: concept
name "A" (code value "1") whose only choice is "X". -/
def c4entry1 : Characteristic :=
  { ConceptNameCodeSequence := { CodeValue := "1", CodingSchemeDesignator := "S", CodeMeaning := "A" }
    choices := [{ CodeValue := "10", CodingSchemeDesignator := "S", CodeMeaning := "X" }] }

/-- Second catalog entry with the same concept-name display meaning "A" but a
different code value "2", whose only choice is "Y". -/
def c4entry2 : Characteristic :=
  { ConceptNameCodeSequence := { CodeValue := "2", CodingSchemeDesignator := "S", CodeMeaning := "A" }
    choices := [{ CodeValue := "20", CodingSchemeDesignator := "S", CodeMeaning := "Y" }] }

/-- A catalog with two entries sharing the concept-name display meaning "A". -/
def c4catalog : Catalog := [c4entry1, c4entry2]

/-- If the scan loop returns a result, the catalog splits as
`pre ++ i :: post` where `i` is the first entry matching the concept name AND
containing the choice label among its choices, and the result is built from
`i` and its first matching choice; entries before `i` match either no part or
only the concept name. -/
lemma findLoop_eq_some (concept_name choice_label : String) (catalog : Catalog) :
    ∀ r : CharacteristicsDict,
      findLoop concept_name choice_label catalog = some r →
      ∃ pre i post j,
        catalog = pre ++ i :: post ∧
        i.ConceptNameCodeSequence.CodeMeaning = concept_name ∧
        i.choices.find? (fun c => c.CodeMeaning == choice_label) = some j ∧
        r = { ConceptNameCodeSequence := i.ConceptNameCodeSequence,
              ConceptCodeSequence := j } ∧
        ∀ e ∈ pre, ¬ (e.ConceptNameCodeSequence.CodeMeaning = concept_name ∧
            e.choices.any (fun c => c.CodeMeaning == choice_label) = true) := by
  induction catalog with
  | nil => intro r h; simp [findLoop] at h
  | cons i rest ih =>
    intro r h
    by_cases hm : i.ConceptNameCodeSequence.CodeMeaning = concept_name
    · rw [findLoop, if_pos hm] at h
      cases hfind : i.choices.find? (fun c => c.CodeMeaning == choice_label) with
      | some j =>
          rw [hfind] at h
          injection h with h
          exact ⟨[], i, rest, j, rfl, hm, hfind, h.symm, by simp⟩
      | none =>
          rw [hfind] at h
          obtain ⟨pre, i', post, j, hcat, hm', hfind', hr, hpre⟩ := ih r h
          refine ⟨i :: pre, i', post, j, by rw [hcat]; rfl, hm', hfind', hr, ?_⟩
          intro e he
          rcases List.mem_cons.mp he with rfl | he'
          · rintro ⟨-, hany⟩
            obtain ⟨c, hc, hcl⟩ := List.any_eq_true.mp hany
            have hnone := List.find?_eq_none.mp hfind c hc
            simp [hcl] at hnone
          · exact hpre e he'
    · rw [findLoop, if_neg hm] at h
      obtain ⟨pre, i', post, j, hcat, hm', hfind', hr, hpre⟩ := ih r h
      refine ⟨i :: pre, i', post, j, by rw [hcat]; rfl, hm', hfind', hr, ?_⟩
      intro e he
      rcases List.mem_cons.mp he with rfl | he'
      · rintro ⟨h1, -⟩; exact hm h1
      · exact hpre e he'

/-- If some catalog entry matches the concept name and contains the choice
label among its choices, the scan loop finds a result. -/
lemma findLoop_isSome (concept_name choice_label : String) (catalog : Catalog)
    (h : ∃ i ∈ catalog, i.ConceptNameCodeSequence.CodeMeaning = concept_name ∧
        ∃ j ∈ i.choices, j.CodeMeaning = choice_label) :
    (findLoop concept_name choice_label catalog).isSome = true := by
  induction catalog with
  | nil => simp at h
  | cons i rest ih =>
    obtain ⟨i0, hi0, hm0, j0, hj0, hcl0⟩ := h
    by_cases hm : i.ConceptNameCodeSequence.CodeMeaning = concept_name
    · rw [findLoop, if_pos hm]
      cases hfind : i.choices.find? (fun c => c.CodeMeaning == choice_label) with
      | some j => simp
      | none =>
          apply ih
          rcases List.mem_cons.mp hi0 with rfl | hi0'
          · exfalso
            have hnone := List.find?_eq_none.mp hfind j0 hj0
            rw [hcl0] at hnone
            simp at hnone
          · exact ⟨i0, hi0', hm0, j0, hj0, hcl0⟩
    · rw [findLoop, if_neg hm]
      apply ih
      rcases List.mem_cons.mp hi0 with rfl | hi0'
      · exact absurd hm0 hm
      · exact ⟨i0, hi0', hm0, j0, hj0, hcl0⟩

/-- Claim C4, counterexample: on a catalog whose two entries both carry the
concept-name display meaning "A", resolving ("A", "Y") returns the SECOND
entry's concept-name code (value "2"), while the first catalog entry whose
concept-name display meaning equals "A" is the first entry (code value "1"):
the first matching concept name does not win. -/
theorem c4_counterexample :
    find_characteristics_from_concept_name_and_choice "A" "Y" c4catalog =
      .ok (some { ConceptNameCodeSequence :=
                    { CodeValue := "2", CodingSchemeDesignator := "S", CodeMeaning := "A" }
                  ConceptCodeSequence :=
                    { CodeValue := "20", CodingSchemeDesignator := "S", CodeMeaning := "Y" } }) ∧
    c4catalog.find? (fun i => i.ConceptNameCodeSequence.CodeMeaning == "A") =
      some c4entry1 ∧
    ({ CodeValue := "2", CodingSchemeDesignator := "S", CodeMeaning := "A" } : Code) ≠
      c4entry1.ConceptNameCodeSequence := by
  refine ⟨rfl, ?_, ?_⟩ <;> decide

/-- Claim C4 (amended): whenever resolve returns a result, the returned codes
are those of the first catalog entry that matches the concept name AND contains
the choice label among its choices; earlier entries match at most the concept
name alone, so with duplicate concept names the first fully matching entry
wins, not the first name match. -/
theorem c4_first_fully_matching_entry_wins
    (catalog : Catalog) (concept_name choice_label : String) (r : CharacteristicsDict)
    (h : find_characteristics_from_concept_name_and_choice concept_name choice_label
        catalog = .ok (some r)) :
    ∃ pre i post,
      catalog = pre ++ i :: post ∧
      i.ConceptNameCodeSequence.CodeMeaning = concept_name ∧
      r.ConceptNameCodeSequence = i.ConceptNameCodeSequence ∧
      i.choices.find? (fun c => c.CodeMeaning == choice_label) =
        some r.ConceptCodeSequence ∧
      ∀ e ∈ pre, ¬ (e.ConceptNameCodeSequence.CodeMeaning = concept_name ∧
          e.choices.any (fun c => c.CodeMeaning == choice_label) = true) := by
  unfold find_characteristics_from_concept_name_and_choice at h
  by_cases hna : choice_label = "N/A"
  · rw [if_pos hna] at h; exact absurd h (by simp)
  · rw [if_neg hna] at h
    cases hloop : findLoop concept_name choice_label catalog with
    | none => rw [hloop] at h; exact absurd h (by simp)
    | some r' =>
        rw [hloop] at h
        injection h with h
        injection h with h
        subst h
        obtain ⟨pre, i, post, j, hcat, hm, hfind, hr, hpre⟩ :=
          findLoop_eq_some concept_name choice_label catalog r' hloop
        exact ⟨pre, i, post, hcat, hm, by rw [hr], by rw [hr]; exact hfind, hpre⟩

/-- Claim C4, witness for the amended theorem: instantiated on the
duplicate-name catalog at ("A", "Y"). -/
theorem c4_first_fully_matching_entry_wins_witness :
    (find_characteristics_from_concept_name_and_choice "A" "Y" c4catalog =
      .ok (some { ConceptNameCodeSequence :=
                    { CodeValue := "2", CodingSchemeDesignator := "S", CodeMeaning := "A" }
                  ConceptCodeSequence :=
                    { CodeValue := "20", CodingSchemeDesignator := "S", CodeMeaning := "Y" } })) ∧
    (∃ pre i post,
      c4catalog = pre ++ i :: post ∧
      i.ConceptNameCodeSequence.CodeMeaning = "A" ∧
      ({ ConceptNameCodeSequence :=
           { CodeValue := "2", CodingSchemeDesignator := "S", CodeMeaning := "A" }
         ConceptCodeSequence :=
           { CodeValue := "20", CodingSchemeDesignator := "S", CodeMeaning := "Y" } } :
         CharacteristicsDict).ConceptNameCodeSequence = i.ConceptNameCodeSequence ∧
      i.choices.find? (fun c => c.CodeMeaning == "Y") =
        some ({ ConceptNameCodeSequence :=
                  { CodeValue := "2", CodingSchemeDesignator := "S", CodeMeaning := "A" }
                ConceptCodeSequence :=
                  { CodeValue := "20", CodingSchemeDesignator := "S", CodeMeaning := "Y" } } :
                CharacteristicsDict).ConceptCodeSequence ∧
      ∀ e ∈ pre, ¬ (e.ConceptNameCodeSequence.CodeMeaning = "A" ∧
          e.choices.any (fun c => c.CodeMeaning == "Y") = true)) :=
  ⟨rfl, c4_first_fully_matching_entry_wins c4catalog "A" "Y" _ rfl⟩

/-- Claim C7: resolving with `choice_label = "N/A"` returns Absent (`None`),
with no error, for every concept name and every catalog. -/
theorem c7_na_returns_absent (concept_name : String) (catalog : Catalog) :
    find_characteristics_from_concept_name_and_choice concept_name "N/A" catalog =
      .ok none := by
  simp [find_characteristics_from_concept_name_and_choice]

/-- Claim C5: when no catalog entry yields a match for a non-"N/A" label (the
scan loop returns nothing, covering both "concept present but choice not
found" and "concept absent"), resolve raises the lookup `ValueError`, whose
message contains both the concept name and the unmatched label. -/
theorem c5_no_match_lookup_fault
    (catalog : Catalog) (concept_name choice_label : String)
    (hna : choice_label ≠ "N/A")
    (hnone : findLoop concept_name choice_label catalog = none) :
    find_characteristics_from_concept_name_and_choice concept_name choice_label
        catalog =
      .error (.ValueError (lookupFaultMessage concept_name choice_label)) ∧
    (∃ a b, lookupFaultMessage concept_name choice_label = a ++ concept_name ++ b) ∧
    (∃ a b, lookupFaultMessage concept_name choice_label = a ++ choice_label ++ b) := by
  refine ⟨?_, ?_, ?_⟩
  · unfold find_characteristics_from_concept_name_and_choice
    rw [if_neg hna, hnone]
  · exact ⟨"Concept name code (CodeMeaning=",
      ") with choices " ++ choice_label ++ " not found",
      by simp [lookupFaultMessage, String.append_assoc]⟩
  · exact ⟨"Concept name code (CodeMeaning=" ++ concept_name ++ ") with choices ",
      " not found", by simp [lookupFaultMessage, String.append_assoc]⟩

/-- Claim C5, witness: resolving ("Shape", "Oval") against a catalog whose
"Shape" entry lacks an "Oval" choice raises the lookup fault naming both. -/
theorem c5_no_match_lookup_fault_witness :
    ("Oval" ≠ "N/A" ∧ findLoop "Shape" "Oval" c5catalog = none) ∧
    (find_characteristics_from_concept_name_and_choice "Shape" "Oval" c5catalog =
        .error (.ValueError (lookupFaultMessage "Shape" "Oval")) ∧
      (∃ a b, lookupFaultMessage "Shape" "Oval" = a ++ "Shape" ++ b) ∧
      (∃ a b, lookupFaultMessage "Shape" "Oval" = a ++ "Oval" ++ b)) :=
  ⟨⟨by decide, by decide⟩,
    c5_no_match_lookup_fault c5catalog "Shape" "Oval" (by decide) (by decide)⟩

/-- Claim C6: for every (concept, label) pair present in the catalog with
label ≠ "N/A", resolve returns a code pair carried unchanged from the catalog:
some entry's concept-name code together with one of that entry's choices whose
display meaning is the label. -/
theorem c6_exact_codes
    (catalog : Catalog) (concept_name choice_label : String)
    (hna : choice_label ≠ "N/A")
    (hpresent : ∃ i ∈ catalog, i.ConceptNameCodeSequence.CodeMeaning = concept_name ∧
        ∃ j ∈ i.choices, j.CodeMeaning = choice_label) :
    ∃ i, i ∈ catalog ∧ i.ConceptNameCodeSequence.CodeMeaning = concept_name ∧
      ∃ j, j ∈ i.choices ∧ j.CodeMeaning = choice_label ∧
        find_characteristics_from_concept_name_and_choice concept_name choice_label
            catalog =
          .ok (some { ConceptNameCodeSequence := i.ConceptNameCodeSequence,
                      ConceptCodeSequence := j }) := by
  have hsome := findLoop_isSome concept_name choice_label catalog hpresent
  obtain ⟨r, hr⟩ := Option.isSome_iff_exists.mp hsome
  obtain ⟨pre, i, post, j, hcat, hm, hfind, hreq, hpre⟩ :=
    findLoop_eq_some concept_name choice_label catalog r hr
  have hj : j.CodeMeaning = choice_label := by
    have hb := List.find?_some hfind
    simp at hb
    exact hb
  refine ⟨i, ?_, hm, j, List.mem_of_find?_eq_some hfind, hj, ?_⟩
  · rw [hcat]; exact List.mem_append_right _ (List.mem_cons_self _ _)
  · unfold find_characteristics_from_concept_name_and_choice
    rw [if_neg hna, hr, hreq]

/-- Claim C6, witness: ("Shape", "Round") is present in `demoCatalog` and
resolve returns its exact codes. -/
theorem c6_exact_codes_witness :
    ("Round" ≠ "N/A" ∧
      (∃ i ∈ demoCatalog, i.ConceptNameCodeSequence.CodeMeaning = "Shape" ∧
        ∃ j ∈ i.choices, j.CodeMeaning = "Round")) ∧
    (∃ i, i ∈ demoCatalog ∧ i.ConceptNameCodeSequence.CodeMeaning = "Shape" ∧
      ∃ j, j ∈ i.choices ∧ j.CodeMeaning = "Round" ∧
        find_characteristics_from_concept_name_and_choice "Shape" "Round" demoCatalog =
          .ok (some { ConceptNameCodeSequence := i.ConceptNameCodeSequence,
                      ConceptCodeSequence := j })) :=
  ⟨⟨by decide, by decide⟩,
    c6_exact_codes demoCatalog "Shape" "Round" (by decide) (by decide)⟩

/-- Claim C8: pruning removes exactly the entries whose key is not among the
current segment ids, and every surviving key keeps its existing
characteristics map (the first entry found for a surviving key is the same
before and after, values preserved). -/
theorem c8_prune_exact (store : Store) (segment_ids : List Nat) (k : Nat)
    (entry : Entry) :
    ((k, entry) ∈ pruneSegmentCharacteristics store segment_ids ↔
      (k, entry) ∈ store ∧ k ∈ segment_ids) ∧
    (k ∈ segment_ids →
      (pruneSegmentCharacteristics store segment_ids).find? (fun p => p.1 == k) =
        store.find? (fun p => p.1 == k)) := by
  constructor
  · simp [pruneSegmentCharacteristics, List.mem_filter, List.elem_iff]
  · intro hk
    induction store with
    | nil => rfl
    | cons p rest ih =>
      unfold pruneSegmentCharacteristics at ih ⊢
      rw [List.filter_cons]
      by_cases hcont : (segment_ids.contains p.1) = true
      · rw [if_pos hcont, List.find?_cons, List.find?_cons]
        cases hpk : (p.1 == k) with
        | true => rfl
        | false => exact ih
      · rw [if_neg hcont]
        have hpk : (p.1 == k) = false := by
          cases hb : (p.1 == k) with
          | true =>
              exfalso
              exact hcont (by rw [eq_of_beq hb]; exact List.elem_iff.mpr hk)
          | false => rfl
        rw [ih, List.find?_cons, hpk]

/-- Claim C8, witness: a concrete instantiation with segment 7 surviving. -/
theorem c8_prune_exact_witness :
    ((7, [("Shape", "Round")]) ∈
        pruneSegmentCharacteristics
          [(7, [("Shape", "Round")]), (12, [("Shape", "N/A")])] [7] ↔
      (7, [("Shape", "Round")]) ∈
        [(7, [("Shape", "Round")]), (12, [("Shape", "N/A")])] ∧ 7 ∈ [7]) ∧
    (7 ∈ [7] →
      (pruneSegmentCharacteristics
          [(7, [("Shape", "Round")]), (12, [("Shape", "N/A")])] [7]).find?
          (fun p => p.1 == 7) =
        ([(7, [("Shape", "Round")]), (12, [("Shape", "N/A")])] : Store).find?
          (fun p => p.1 == 7)) :=
  c8_prune_exact [(7, [("Shape", "Round")]), (12, [("Shape", "N/A")])] [7] 7
    [("Shape", "Round")]

/-- Every item `codedItemsFor` produces is a coded content item. -/
lemma codedItemsFor_coded (catalog : Catalog) (entry : Entry) :
    ∀ x ∈ codedItemsFor catalog entry, ∃ d, x = SRChild.coded d := by
  intro x hx
  obtain ⟨p, hp, hpx⟩ := List.mem_filterMap.mp hx
  cases hfind : find_characteristics_from_concept_name_and_choice p.1 p.2 catalog with
  | error e => rw [hfind] at hpx; simp at hpx
  | ok o =>
      cases o with
      | none => rw [hfind] at hpx; simp at hpx
      | some ch =>
          rw [hfind] at hpx
          simp at hpx
          exact ⟨create_dataset_from_characteristics ch, hpx.symm⟩

/-- When a non-"N/A" label resolves without raising, it resolves to a match
(`.ok none` only happens for "N/A"). -/
lemma resolves_non_na (catalog : Catalog) (p : String × String)
    (hna : ¬ p.2 = "N/A")
    (hp : exceptIsOk (find_characteristics_from_concept_name_and_choice p.1 p.2
        catalog) = true) :
    ∃ ch, find_characteristics_from_concept_name_and_choice p.1 p.2 catalog =
      .ok (some ch) := by
  cases hfind : find_characteristics_from_concept_name_and_choice p.1 p.2 catalog with
  | error e => rw [hfind] at hp; simp [exceptIsOk] at hp
  | ok o =>
      cases o with
      | some ch => exact ⟨ch, rfl⟩
      | none =>
          exfalso
          unfold find_characteristics_from_concept_name_and_choice at hfind
          rw [if_neg hna] at hfind
          cases hloop : findLoop p.1 p.2 catalog with
          | some r => rw [hloop] at hfind; simp at hfind
          | none => rw [hloop] at hfind; simp at hfind

/-- Under the no-raise precondition, one entry contributes exactly one coded
item per non-"N/A" pair. -/
lemma codedItemsFor_length (catalog : Catalog) :
    ∀ entry : Entry, entryResolvesB catalog entry = true →
      (codedItemsFor catalog entry).length =
        (entry.filter (fun p => !(p.2 == "N/A"))).length := by
  intro entry
  induction entry with
  | nil => intro _; rfl
  | cons p rest ih =>
      intro h
      rw [entryResolvesB, List.all_cons, Bool.and_eq_true] at h
      obtain ⟨hp, hrest⟩ := h
      have hrest' : entryResolvesB catalog rest = true := hrest
      by_cases hna : p.2 = "N/A"
      · have hfind : find_characteristics_from_concept_name_and_choice p.1 p.2
            catalog = .ok none := by
          unfold find_characteristics_from_concept_name_and_choice
          rw [if_pos hna]
        have hcons : codedItemsFor catalog (p :: rest) = codedItemsFor catalog rest := by
          simp [codedItemsFor, List.filterMap_cons, hfind]
        have hbeq : (p.2 == "N/A") = true := beq_iff_eq.mpr hna
        rw [hcons, List.filter_cons]
        simp [hbeq, ih hrest']
      · obtain ⟨ch, hfind⟩ := resolves_non_na catalog p hna hp
        have hcons : codedItemsFor catalog (p :: rest) =
            SRChild.coded (create_dataset_from_characteristics ch) ::
              codedItemsFor catalog rest := by
          simp [codedItemsFor, List.filterMap_cons, hfind]
        have hbeq : (p.2 == "N/A") = false := by
          cases hb : (p.2 == "N/A") with
          | true => exact absurd (eq_of_beq hb) hna
          | false => rfl
        rw [hcons, List.filter_cons]
        simp [hbeq, ih hrest']

/-- Under the no-raise precondition, the inner merge loop appends exactly the
entry's coded items to the paired item's content sequence. -/
lemma applyEntry_ok (catalog : Catalog) :
    ∀ (entry : Entry) (dataset : SegmentContentItem),
      entryResolvesB catalog entry = true →
      applyEntry catalog dataset entry =
        .ok { dataset with ContentSequence :=
                dataset.ContentSequence ++ codedItemsFor catalog entry } := by
  intro entry
  induction entry with
  | nil => intro ds _; simp [applyEntry, codedItemsFor]
  | cons p rest ih =>
      intro ds h
      rw [entryResolvesB, List.all_cons, Bool.and_eq_true] at h
      obtain ⟨hp, hrest⟩ := h
      have hrest' : entryResolvesB catalog rest = true := hrest
      cases hfind : find_characteristics_from_concept_name_and_choice p.1 p.2 catalog with
      | error e => rw [hfind] at hp; simp [exceptIsOk] at hp
      | ok o =>
          cases o with
          | none =>
              simp only [applyEntry, hfind, codedItemsFor, List.filterMap_cons]
              exact ih ds hrest'
          | some ch =>
              simp only [applyEntry, hfind, codedItemsFor, List.filterMap_cons]
              rw [ih _ hrest']
              simp [codedItemsFor, List.append_assoc]

/-- Under the no-raise precondition (needed only for the keys `zip` actually
pairs), the merge loop succeeds and produces exactly `expectedItems`. -/
lemma mergeZip_ok (catalog : Catalog) (store : Store) :
    ∀ (datasets : List SegmentContentItem) (keys : List Nat),
      (∀ k ∈ keys.take datasets.length,
        entryResolvesB catalog (lookupEntry store k) = true) →
      mergeZip catalog store datasets keys =
        .ok (expectedItems catalog store datasets keys) := by
  intro datasets
  induction datasets with
  | nil => intro keys _; cases keys <;> rfl
  | cons ds rest ih =>
      intro keys h
      cases keys with
      | nil => rfl
      | cons k keys' =>
          have hk : entryResolvesB catalog (lookupEntry store k) = true := by
            apply h
            simp [List.take]
          have hrest : ∀ k' ∈ keys'.take rest.length,
              entryResolvesB catalog (lookupEntry store k') = true := by
            intro k' hk'
            apply h
            simp only [List.length_cons, List.take_succ_cons, List.mem_cons]
            exact Or.inr hk'
          rw [mergeZip, applyEntry_ok catalog _ _ hk, ih keys' hrest]
          rfl

/-- The merge keeps the per-segment item count of the SR. -/
lemma expectedItems_length (catalog : Catalog) (store : Store) :
    ∀ (datasets : List SegmentContentItem) (keys : List Nat),
      (expectedItems catalog store datasets keys).length = datasets.length := by
  intro datasets
  induction datasets with
  | nil => intro keys; cases keys <;> rfl
  | cons ds rest ih =>
      intro keys
      cases keys with
      | nil => rfl
      | cons k ks => simp [expectedItems, ih]

/-- Positions past the key list are left unmodified by the merge. -/
lemma expectedItems_getElem?_ge (catalog : Catalog) (store : Store) :
    ∀ (datasets : List SegmentContentItem) (keys : List Nat) (i : Nat),
      keys.length ≤ i →
      (expectedItems catalog store datasets keys)[i]? = datasets[i]? := by
  intro datasets
  induction datasets with
  | nil => intro keys i _; cases keys <;> rfl
  | cons ds rest ih =>
      intro keys i h
      cases keys with
      | nil => rfl
      | cons k ks =>
          cases i with
          | zero => exact absurd h (by simp)
          | succ n =>
              simp only [expectedItems, List.getElem?_cons_succ]
              exact ih ks n (Nat.le_of_succ_le_succ h)

/-- Each position paired by `zip` is the old item with the paired key's coded
items appended. -/
lemma expectedItems_getElem?_pair (catalog : Catalog) (store : Store) :
    ∀ (datasets : List SegmentContentItem) (keys : List Nat) (i : Nat)
      (ds : SegmentContentItem) (k : Nat),
      datasets[i]? = some ds → keys[i]? = some k →
      (expectedItems catalog store datasets keys)[i]? =
        some { ds with ContentSequence :=
                 ds.ContentSequence ++ codedItemsFor catalog (lookupEntry store k) } := by
  intro datasets
  induction datasets with
  | nil => intro keys i ds k h1 _; simp at h1
  | cons d rest ih =>
      intro keys i ds k h1 h2
      cases keys with
      | nil => simp at h2
      | cons k0 ks =>
          cases i with
          | zero =>
              simp only [List.getElem?_cons_zero, Option.some.injEq] at h1 h2
              subst h1; subst h2
              simp [expectedItems]
          | succ n =>
              simp only [List.getElem?_cons_succ] at h1 h2
              simp only [expectedItems, List.getElem?_cons_succ]
              exact ih ks n ds k h1 h2

/-- Python `sorted(...)` returns one key per store entry. -/
lemma sortedKeysOf_length (store : Store) :
    (sortedKeysOf store).length = store.length := by
  unfold sortedKeysOf
  rw [(List.perm_insertionSort _ _).length_eq, List.length_map]

/-- Claim C2: when the SEG segment count differs from the store entry count,
the merge fails with the consistency `ValueError` (the spec's consistency
fault), and it does so before the SR dataset is read or written: the outcome
is the same for any SR dataset, and no output SR is produced. -/
theorem c2_count_mismatch_fails_before_sr
    (seg_ds : SEGDataset) (store : Store) (catalog : Catalog) (outputSRPath : String)
    (hmis : seg_ds.SegmentSequence.length ≠ store.length) :
    ∀ sr_ds sr_other : SRDataset,
      createDICOMSR_merge seg_ds store catalog sr_ds outputSRPath =
        .error (.ValueError
          (consistencyFaultMessage seg_ds.numDataElements store.length)) ∧
      ConsistencyFault (.ValueError
        (consistencyFaultMessage seg_ds.numDataElements store.length)) ∧
      createDICOMSR_merge seg_ds store catalog sr_ds outputSRPath =
        createDICOMSR_merge seg_ds store catalog sr_other outputSRPath := by
  intro sr_ds sr_other
  have hlen : seg_ds.SegmentSequence.length ≠ (sortedKeysOf store).length := by
    rw [sortedKeysOf_length]
    exact hmis
  refine ⟨?_, ⟨_, _, rfl⟩, ?_⟩
  · unfold createDICOMSR_merge
    rw [if_pos hlen]
  · unfold createDICOMSR_merge
    rw [if_pos hlen, if_pos hlen]

/-- Claim C2, witness: SEG with 3 segments against a store with 2 entries
fails with the consistency fault, identically for two different SR datasets. -/
theorem c2_count_mismatch_fails_before_sr_witness :
    (demoSeg3.SegmentSequence.length ≠ demoStore2.length) ∧
    (createDICOMSR_merge demoSeg3 demoStore2 demoCatalog demoSR "sr.dcm" =
        .error (.ValueError
          (consistencyFaultMessage demoSeg3.numDataElements demoStore2.length)) ∧
      ConsistencyFault (.ValueError
        (consistencyFaultMessage demoSeg3.numDataElements demoStore2.length)) ∧
      createDICOMSR_merge demoSeg3 demoStore2 demoCatalog demoSR "sr.dcm" =
        createDICOMSR_merge demoSeg3 demoStore2 demoCatalog demoSRother "sr.dcm") :=
  ⟨by decide,
    c2_count_mismatch_fails_before_sr demoSeg3 demoStore2 demoCatalog "sr.dcm"
      (by decide) demoSR demoSRother⟩

/-- Claim C1: on matched counts (N SEG segment records, N store entries), if
every non-"N/A" pair of the paired segments' maps resolves in the catalog,
the merge succeeds, returns the SR path it was asked to write, and the SR's
per-segment content items under root content item 5 — paired in document
order with the store's keys in ascending order — each gain exactly the coded
items of their segment's map appended after their existing children: one coded
content item per non-"N/A" pair and nothing else. -/
theorem c1_merge_matched_counts
    (seg_ds : SEGDataset) (store : Store) (catalog : Catalog) (sr_ds : SRDataset)
    (outputSRPath : String) (item5 : SRRootItem)
    (h5 : sr_ds.ContentSequence[5]? = some item5)
    (hN : seg_ds.SegmentSequence.length = store.length)
    (hres : ∀ k ∈ sortedKeysOf store,
        entryResolvesB catalog (lookupEntry store k) = true) :
    createDICOMSR_merge seg_ds store catalog sr_ds outputSRPath =
      .ok (outputSRPath,
        { sr_ds with
            ContentSequence := sr_ds.ContentSequence.set 5
              { item5 with
                  ContentSequence := expectedItems catalog store
                    item5.ContentSequence (sortedKeysOf store) } }) ∧
    (∀ (i : Nat) (ds : SegmentContentItem) (k : Nat),
        item5.ContentSequence[i]? = some ds →
        (sortedKeysOf store)[i]? = some k →
        (expectedItems catalog store item5.ContentSequence (sortedKeysOf store))[i]? =
          some { ds with ContentSequence :=
                   ds.ContentSequence ++ codedItemsFor catalog (lookupEntry store k) }) ∧
    (∀ k ∈ sortedKeysOf store,
        (codedItemsFor catalog (lookupEntry store k)).length =
          ((lookupEntry store k).filter (fun p => !(p.2 == "N/A"))).length ∧
        ∀ x ∈ codedItemsFor catalog (lookupEntry store k),
          ∃ d, x = SRChild.coded d) := by
  have hlen : ¬ seg_ds.SegmentSequence.length ≠ (sortedKeysOf store).length := by
    rw [sortedKeysOf_length]
    exact fun hcon => hcon hN
  have htake : ∀ k ∈ (sortedKeysOf store).take item5.ContentSequence.length,
      entryResolvesB catalog (lookupEntry store k) = true :=
    fun k hk => hres k (List.take_subset _ _ hk)
  have hmz := mergeZip_ok catalog store item5.ContentSequence (sortedKeysOf store)
    htake
  refine ⟨?_, ?_, ?_⟩
  · simp [createDICOMSR_merge, hlen, h5, hmz]
  · exact fun i ds k h1 h2 =>
      expectedItems_getElem?_pair catalog store item5.ContentSequence
        (sortedKeysOf store) i ds k h1 h2
  · exact fun k hk =>
      ⟨codedItemsFor_length catalog (lookupEntry store k) (hres k hk),
        codedItemsFor_coded catalog (lookupEntry store k)⟩

/-- Claim C1, witness: two SEG segments, store entries 7 → Shape:Round and
12 → Shape:N/A, catalog defining Shape with Round/Irregular — the merge
succeeds and the conclusion holds at these inputs. -/
theorem c1_merge_matched_counts_witness :
    (demoSR.ContentSequence[5]? = some demoItem5 ∧
      demoSeg2.SegmentSequence.length = demoStore2.length ∧
      (∀ k ∈ sortedKeysOf demoStore2,
        entryResolvesB demoCatalog (lookupEntry demoStore2 k) = true)) ∧
    (createDICOMSR_merge demoSeg2 demoStore2 demoCatalog demoSR "sr.dcm" =
        .ok ("sr.dcm",
          { demoSR with
              ContentSequence := demoSR.ContentSequence.set 5
                { demoItem5 with
                    ContentSequence := expectedItems demoCatalog demoStore2
                      demoItem5.ContentSequence (sortedKeysOf demoStore2) } }) ∧
      (∀ (i : Nat) (ds : SegmentContentItem) (k : Nat),
          demoItem5.ContentSequence[i]? = some ds →
          (sortedKeysOf demoStore2)[i]? = some k →
          (expectedItems demoCatalog demoStore2 demoItem5.ContentSequence
              (sortedKeysOf demoStore2))[i]? =
            some { ds with ContentSequence :=
                     ds.ContentSequence ++
                       codedItemsFor demoCatalog (lookupEntry demoStore2 k) }) ∧
      (∀ k ∈ sortedKeysOf demoStore2,
          (codedItemsFor demoCatalog (lookupEntry demoStore2 k)).length =
            ((lookupEntry demoStore2 k).filter (fun p => !(p.2 == "N/A"))).length ∧
          ∀ x ∈ codedItemsFor demoCatalog (lookupEntry demoStore2 k),
            ∃ d, x = SRChild.coded d)) :=
  ⟨⟨by decide, by decide, by decide⟩,
    c1_merge_matched_counts demoSeg2 demoStore2 demoCatalog demoSR "sr.dcm" demoItem5
      (by decide) (by decide) (by decide)⟩

/-- Claim C10: the consistency check compares only the SEG segment sequence to
the store, never the SR's per-segment item count: with SEG and store counts
equal (and the paired entries resolving), the merge succeeds whatever the
number of per-segment SR items, the new list has the same length as the old,
positions past the key list are unmodified, and only the `zip`-paired prefix
gains coded items. -/
theorem c10_sr_item_count_not_validated
    (seg_ds : SEGDataset) (store : Store) (catalog : Catalog) (sr_ds : SRDataset)
    (outputSRPath : String) (item5 : SRRootItem)
    (h5 : sr_ds.ContentSequence[5]? = some item5)
    (hN : seg_ds.SegmentSequence.length = store.length)
    (htake : ∀ k ∈ (sortedKeysOf store).take item5.ContentSequence.length,
        entryResolvesB catalog (lookupEntry store k) = true) :
    ∃ newItems,
      createDICOMSR_merge seg_ds store catalog sr_ds outputSRPath =
        .ok (outputSRPath,
          { sr_ds with
              ContentSequence := sr_ds.ContentSequence.set 5
                { item5 with ContentSequence := newItems } }) ∧
      newItems.length = item5.ContentSequence.length ∧
      (∀ i, (sortedKeysOf store).length ≤ i →
          newItems[i]? = item5.ContentSequence[i]?) ∧
      (∀ (i : Nat) (ds : SegmentContentItem) (k : Nat),
          item5.ContentSequence[i]? = some ds →
          (sortedKeysOf store)[i]? = some k →
          newItems[i]? =
            some { ds with ContentSequence :=
                     ds.ContentSequence ++
                       codedItemsFor catalog (lookupEntry store k) }) := by
  have hlen : ¬ seg_ds.SegmentSequence.length ≠ (sortedKeysOf store).length := by
    rw [sortedKeysOf_length]
    exact fun hcon => hcon hN
  refine ⟨expectedItems catalog store item5.ContentSequence (sortedKeysOf store),
    ?_, expectedItems_length catalog store _ _,
    fun i hi => expectedItems_getElem?_ge catalog store _ _ i hi,
    fun i ds k h1 h2 =>
      expectedItems_getElem?_pair catalog store _ _ i ds k h1 h2⟩
  have hmz := mergeZip_ok catalog store item5.ContentSequence (sortedKeysOf store)
    htake
  simp [createDICOMSR_merge, hlen, h5, hmz]

/-- Claim C10, witness: SEG and store both have 3 segments (so the check
passes) while the SR holds only 2 per-segment items — the merge still
succeeds, pairing just the first two sorted keys. -/
theorem c10_sr_item_count_not_validated_witness :
    (demoSR.ContentSequence[5]? = some demoItem5 ∧
      demoSeg3.SegmentSequence.length = demoStore3.length ∧
      (∀ k ∈ (sortedKeysOf demoStore3).take demoItem5.ContentSequence.length,
        entryResolvesB demoCatalog (lookupEntry demoStore3 k) = true)) ∧
    (∃ newItems,
      createDICOMSR_merge demoSeg3 demoStore3 demoCatalog demoSR "sr.dcm" =
        .ok ("sr.dcm",
          { demoSR with
              ContentSequence := demoSR.ContentSequence.set 5
                { demoItem5 with ContentSequence := newItems } }) ∧
      newItems.length = demoItem5.ContentSequence.length ∧
      (∀ i, (sortedKeysOf demoStore3).length ≤ i →
          newItems[i]? = demoItem5.ContentSequence[i]?) ∧
      (∀ (i : Nat) (ds : SegmentContentItem) (k : Nat),
          demoItem5.ContentSequence[i]? = some ds →
          (sortedKeysOf demoStore3)[i]? = some k →
          newItems[i]? =
            some { ds with ContentSequence :=
                     ds.ContentSequence ++
                       codedItemsFor demoCatalog (lookupEntry demoStore3 k) })) :=
  ⟨⟨by decide, by decide, by decide⟩,
    c10_sr_item_count_not_validated demoSeg3 demoStore3 demoCatalog demoSR "sr.dcm"
      demoItem5 (by decide) (by decide) (by decide)⟩

/-- Claim C3 (refuting evidence): when the external SR-generation CLI reports a
status other than 'Completed' ('CompletedWithErrors' here), `saveReport` does
NOT return (False, message): the bare `Exception` raised in `createDICOMSR` is
outside the `except (RuntimeError, ValueError, AttributeError)` clause, so it
propagates out of `saveReport` uncaught (the `finally` cleanup still runs). -/
theorem c3_encoder_fault_escapes_saveReport :
    (saveReportWith true (.ok ()) "CompletedWithErrors" demoSeg2 demoStore2
        demoCatalog demoSR "sr.dcm").result =
      .error (.plainException "tid1500writer CLI did not complete cleanly") ∧
    (saveReportWith true (.ok ()) "CompletedWithErrors" demoSeg2 demoStore2
        demoCatalog demoSR "sr.dcm").cleanupRan = true ∧
    caughtBySaveReport
      (.plainException "tid1500writer CLI did not complete cleanly") = false :=
  ⟨rfl, rfl, rfl⟩

/-- Claim C9: once past the metadata confirmation, `cleanupTemporaryData` runs
on every outcome of the save body — normal success, a caught error, and an
uncaught exception alike (Python `finally`). -/
theorem c9_cleanup_always_runs (body : Except PyExc Unit) :
    (saveReport true body).cleanupRan = true := by
  cases body with
  | ok u => rfl
  | error e =>
      unfold saveReport
      cases hc : caughtBySaveReport e <;> simp [hc]

end QuantitativeReporting
